import Mathlib

/-!
Shallow embedding of the MEV bundle lifecycle engine (`src/flashbots.ts`,
class `FlashbotsMEVExecutor`).

Modelling conventions:
- Asynchronous adapter calls that may throw are embedded as `Option`-valued
  results: `none` is a thrown error (caught by the surrounding `try/catch`
  in the source), `some v` a successful response.
- The provider (chain client) is a read-only snapshot of the chain state as
  observed during one execution: none of the embedded operations mutates it,
  mirroring the fact that the source performs only read RPCs and holds no
  shared mutable state (in particular, no nonce allocator).
- `ethers` big integers are embedded as `Nat` (wei); amounts passed through
  `parseEther` are whole-ether `Nat`s.
- A serialized signed transaction (the string returned by
  `wallet.signTransaction`) is embedded as the request payload it encodes
  plus an opaque signature string, since serialization preserves all fields.
- JavaScript truthiness on nullable big integers (`x || d`) is embedded by
  `jsOr`, which also treats `0` as falsy, exactly as JavaScript does.
-/

/-- Lowercase of a string, character by character (embeds
`String.prototype.toLowerCase` as used on hex addresses). -/
def strToLower (s : String) : String := String.mk (s.data.map Char.toLower)

/-- `ethers.parseEther` on a whole-ether amount. -/
def parseEther (n : Nat) : Nat := n * 1000000000000000000

/-- `ethers.parseUnits(n, "gwei")`. -/
def parseUnitsGwei (n : Nat) : Nat := n * 1000000000

/-- JavaScript `x || d` on a nullable big integer: `null` and `0n` are both
falsy and fall back to the default. -/
def jsOr (x : Option Nat) (d : Nat) : Nat :=
  match x with
  | some v => if v = 0 then d else v
  | none => d

/-- Result of `provider.getFeeData()`: both fee fields are nullable. -/
structure FeeData where
  maxFeePerGas : Option Nat
  maxPriorityFeePerGas : Option Nat
deriving DecidableEq

/-- A transaction detail as returned by `provider.getTransaction`: the fields
the executor reads. The source field `to` is a reserved word in Lean and is
embedded as `toAddr`; it is absent for contract-creation transactions. -/
structure Tx where
  hash : String
  toAddr : Option String
  value : Nat
deriving DecidableEq

/-- An entry of `pendingBlock.transactions`: with
`eth_getBlockByNumber(.., true)` entries should be full objects, but the
source explicitly guards against bare hash strings (`typeof tx !== 'string'`),
so both shapes are embedded. -/
inductive PendingEntry where
  | hashOnly (h : String)
  | full (tx : Tx)
deriving DecidableEq

/-- The pending block returned by `provider.send("eth_getBlockByNumber",
["pending", true])`; `transactions` is `none` when the field is absent
(the source guards `pendingBlock && pendingBlock.transactions`). -/
structure PendingBlock where
  transactions : Option (List PendingEntry)
deriving DecidableEq

/-- The unsigned transaction request built by
`createFrontRunTransaction` / `createBackRunTransaction`. The source fields
`to` and `from` are reserved words in Lean and are embedded as `toAddr` and
`fromAddr`. -/
structure TransactionRequest where
  toAddr : String
  data : String
  gasLimit : Nat
  maxFeePerGas : Nat
  maxPriorityFeePerGas : Nat
  value : Nat
  chainId : Nat
  fromAddr : String
  nonce : Nat
deriving DecidableEq

/-- A serialized signed transaction: the request payload it encodes plus an
opaque signature component. -/
structure SignedTx where
  req : TransactionRequest
  sig : String
deriving DecidableEq

/-- The chain client (`ethers.JsonRpcProvider`) as observed during one
execution. Each field is the result of the corresponding RPC at that point:
`none` embeds a thrown error. -/
structure Provider where
  getBlockNumber : Option Nat
  getFeeData : Option FeeData
  getTransactionCount : String → Option Nat
  getPendingBlock : Option (Option PendingBlock)
  getTransaction : String → Option (Option Tx)

/-- The signer (`ethers.Wallet`): an address plus a signing capability;
`sign` returning `none` embeds a `SigningError`. -/
structure Wallet where
  address : String
  sign : TransactionRequest → Option String

/-- `wallet.signTransaction(req)`: serializes the request with the wallet's
signature; fails exactly when the signing capability fails. -/
def Wallet.signTransaction (w : Wallet) (t : TransactionRequest) : Option SignedTx :=
  (w.sign t).map fun s => { req := t, sig := s }

/-- The `BundleRequest` interface: ordered signed transactions plus the
target block number. -/
structure BundleRequest where
  transactions : List SignedTx
  blockNumber : Nat
deriving DecidableEq

/-- The `MEVOpportunity.type` union. -/
inductive MEVType where
  | sandwich
  | arbitrage
  | liquidation
deriving DecidableEq

/-- The `MEVOpportunity` interface. -/
structure MEVOpportunity where
  type : MEVType
  profit : String
  transactions : List SignedTx
  targetBlock : Nat
deriving DecidableEq

/-- Hardcoded Uniswap V2 router address (front-run/back-run target, and first
entry of the scanner's DEX list). -/
def uniswapV2Router : String := "0x7a250d5630B4cF539739dF2C5dAcb4c659F2488D"

/-- Hardcoded Uniswap V3 router address (second entry of the scanner's DEX
list). -/
def uniswapV3Router : String := "0xE592427A0AEce92De3Edee1F18E0157C05861564"

/-- Placeholder calldata of the front-run swap. -/
def swapData : String := "0x..."

/-- Placeholder calldata of the back-run swap. -/
def swapBackData : String := "0x..."

/-- Placeholder profit estimate emitted by `analyzeTransaction`. -/
def profitPlaceholder : String := "0.1"

/-- The scanner's DEX router allowlist, lowercased as in the source
(`.map(addr => addr.toLowerCase())`). -/
def dexAddresses : List String := [uniswapV2Router, uniswapV3Router].map strToLower

/-- `FlashbotsMEVExecutor.createFrontRunTransaction`: fetches fee data and
the wallet's transaction count, and builds the front-run request targeting
the hardcoded Uniswap V2 router with nonce equal to the fetched count.
The `targetTx` parameter is unused, as in the source. -/
def createFrontRunTransaction (p : Provider) (w : Wallet) (targetTx : String)
    (amountIn : Nat) : Option TransactionRequest :=
  match p.getFeeData with
  | none => none
  | some gasPrice =>
    match p.getTransactionCount w.address with
    | none => none
    | some n =>
      some { toAddr := uniswapV2Router
             data := swapData
             gasLimit := 200000
             maxFeePerGas := jsOr gasPrice.maxFeePerGas (parseUnitsGwei 50)
             maxPriorityFeePerGas := jsOr gasPrice.maxPriorityFeePerGas (parseUnitsGwei 2)
             value := parseEther amountIn
             chainId := 1
             fromAddr := w.address
             nonce := n }

/-- `FlashbotsMEVExecutor.createBackRunTransaction`: like the front-run but
with `value = 0` and nonce equal to the fetched transaction count plus 1. -/
def createBackRunTransaction (p : Provider) (w : Wallet) (targetTx : String)
    (amountIn : Nat) : Option TransactionRequest :=
  match p.getFeeData with
  | none => none
  | some gasPrice =>
    match p.getTransactionCount w.address with
    | none => none
    | some n =>
      some { toAddr := uniswapV2Router
             data := swapBackData
             gasLimit := 200000
             maxFeePerGas := jsOr gasPrice.maxFeePerGas (parseUnitsGwei 50)
             maxPriorityFeePerGas := jsOr gasPrice.maxPriorityFeePerGas (parseUnitsGwei 2)
             value := 0
             chainId := 1
             fromAddr := w.address
             nonce := n + 1 }

/-- `FlashbotsMEVExecutor.createSandwichBundle`: builds and signs front-run
and back-run transactions, fetches the current block number, and returns the
bundle targeting the next block; any failed step is caught and yields `none`
(the source's `catch { return null }`). -/
def createSandwichBundle (p : Provider) (w : Wallet) (targetTx : String)
    (amountIn : Nat) : Option BundleRequest :=
  match createFrontRunTransaction p w targetTx amountIn with
  | none => none
  | some frontRunTx =>
    match createBackRunTransaction p w targetTx amountIn with
    | none => none
    | some backRunTx =>
      match p.getBlockNumber with
      | none => none
      | some currentBlock =>
        match w.signTransaction frontRunTx with
        | none => none
        | some signedFrontRunTx =>
          match w.signTransaction backRunTx with
          | none => none
          | some signedBackRunTx =>
            some { transactions := [signedFrontRunTx, signedBackRunTx]
                   blockNumber := currentBlock + 1 }

/-- `FlashbotsMEVExecutor.analyzeTransaction`: fetches the transaction
detail; returns `null` when the fetch throws, the detail is missing, or the
recipient is absent; emits a sandwich opportunity targeting the next block
when the (lowercased) recipient is in the DEX allowlist. -/
def analyzeTransaction (p : Provider) (txHash : String) : Option MEVOpportunity :=
  match p.getTransaction txHash with
  | none => none
  | some none => none
  | some (some tx) =>
    match tx.toAddr with
    | none => none
    | some toAddr =>
      if dexAddresses.contains (strToLower toAddr) then
        match p.getBlockNumber with
        | none => none
        | some bn =>
          some { type := MEVType.sandwich
                 profit := profitPlaceholder
                 transactions := []
                 targetBlock := bn + 1 }
      else none

/-- Body of the scanner's loop for one pending-pool entry: bare hash strings
are skipped (`typeof tx !== 'string'`), full entries are analyzed by hash. -/
def analyzeEntry (p : Provider) (e : PendingEntry) : Option MEVOpportunity :=
  match e with
  | PendingEntry.hashOnly _ => none
  | PendingEntry.full tx => analyzeTransaction p tx.hash

/-- `FlashbotsMEVExecutor.scanMEVOpportunities`: fetches the pending block
and analyzes its first 10 transaction entries; a thrown pending fetch is
caught with the (empty) accumulator returned. -/
def scanMEVOpportunities (p : Provider) : List MEVOpportunity :=
  match p.getPendingBlock with
  | none => []
  | some none => []
  | some (some pendingBlock) =>
    match pendingBlock.transactions with
    | none => []
    | some entries => (entries.take 10).filterMap (analyzeEntry p)

/-- Result of `bundle.simulate()` on a submitted bundle. -/
structure Simulation where
  firstRevert : Option String
  totalGasUsed : Nat
  totalEthSentToCoinbase : Nat
deriving DecidableEq

/-- The object returned by `flashbotsProvider.sendBundle`: its `simulate`
method's outcome (`none` embeds a thrown simulation call). -/
structure BundleHandle where
  simulate : Option Simulation

/-- The Flashbots relay adapter: `sendBundle` submits the given transactions
for the given target block and returns a handle, or throws (`none`). -/
structure FlashbotsProvider where
  sendBundle : List SignedTx → Nat → Option BundleHandle

/-- Completed relay interactions of one `executeBundle` run, in order.
`sendBundleCalled` records that `flashbotsProvider.sendBundle` — the relay
submission — completed for the given transactions and block. -/
inductive RelayEvent where
  | sendBundleCalled (txs : List SignedTx) (blockNumber : Nat)
  | simulateCalled
deriving DecidableEq

/-- `FlashbotsMEVExecutor.executeBundle`: submits the bundle via
`sendBundle`, then simulates it, and returns `false` when the simulation
reports a revert (or any step throws), `true` otherwise. The second
component is the trace of completed relay interactions, in source order:
the submission happens before the simulation. -/
def executeBundle (fb : FlashbotsProvider) (req : BundleRequest) :
    Bool × List RelayEvent :=
  match fb.sendBundle req.transactions req.blockNumber with
  | none => (false, [])
  | some bundle =>
    match bundle.simulate with
    | none => (false, [RelayEvent.sendBundleCalled req.transactions req.blockNumber])
    | some simulation =>
      if simulation.firstRevert.isSome then
        (false, [RelayEvent.sendBundleCalled req.transactions req.blockNumber,
                 RelayEvent.simulateCalled])
      else
        (true, [RelayEvent.sendBundleCalled req.transactions req.blockNumber,
                RelayEvent.simulateCalled])

/-- The nonces of a bundle's transactions, in bundle order. -/
def bundleNonces (b : BundleRequest) : List Nat :=
  b.transactions.map fun s => s.req.nonce

/-- The recipients of a bundle's transactions, in bundle order. -/
def bundleRecipients (b : BundleRequest) : List String :=
  b.transactions.map fun s => s.req.toAddr

/-- Whether a transaction detail's recipient is in the DEX router
allowlist (the scanner's match condition). -/
def routerRecipient (tx : Tx) : Bool :=
  match tx.toAddr with
  | some a => dexAddresses.contains (strToLower a)
  | none => false

/-- The sandwich opportunity literal `analyzeTransaction` emits for a given
target block. -/
def mkSandwichOpp (target : Nat) : MEVOpportunity :=
  { type := MEVType.sandwich
    profit := profitPlaceholder
    transactions := []
    targetBlock := target }

/-- Whether a pending-pool entry is a full transaction whose recipient is a
configured router. -/
def isRouterEntry (e : PendingEntry) : Bool :=
  match e with
  | PendingEntry.full tx => routerRecipient tx
  | PendingEntry.hashOnly _ => false

/-- Address of the executor's wallet used in concrete evaluations. -/
def addrW : String := "0xExecutorWalletAddress"

/-- Opaque signature component produced by the concrete wallet. -/
def sigW : String := "0xSignedPayload"

/-- A concrete wallet that signs every request. -/
def wW : Wallet := { address := addrW, sign := fun _ => some sigW }

/-- A concrete wallet whose signing capability always fails. -/
def wNoSign : Wallet := { address := addrW, sign := fun _ => none }

/-- Concrete fee data. -/
def feeW : FeeData :=
  { maxFeePerGas := some (parseUnitsGwei 30)
    maxPriorityFeePerGas := some (parseUnitsGwei 2) }

/-- Hash of a concrete victim transaction sent to the V2 router. -/
def hW : String := "0xVictimHash"

/-- A concrete victim transaction sent to the V2 router with value 2 ETH. -/
def txW : Tx := { hash := hW, toAddr := some uniswapV2Router, value := parseEther 2 }

/-- A concrete provider snapshot: height 100, account nonce 5, one pending
victim transaction to the V2 router. -/
def pW : Provider :=
  { getBlockNumber := some 100
    getFeeData := some feeW
    getTransactionCount := fun _ => some 5
    getPendingBlock := some (some { transactions := some [PendingEntry.full txW] })
    getTransaction := fun _ => some (some txW) }

/-- The bundle the executor builds from `pW`. -/
def bW : BundleRequest := (createSandwichBundle pW wW hW 1).get (by decide)

/-- `pW` with a failing fee fetch. -/
def pNoFee : Provider := { pW with getFeeData := none }

/-- `pW` with a failing nonce fetch. -/
def pNoCount : Provider := { pW with getTransactionCount := fun _ => none }

/-- `pW` with a failing block-number fetch. -/
def pNoBlock : Provider := { pW with getBlockNumber := none }

/-- Hash of the victim of a first concurrent build pipeline. -/
def hA : String := "0xVictimHashA"

/-- Hash of the victim of a second concurrent build pipeline. -/
def hB : String := "0xVictimHashB"

/-- Bundle built by the first of two overlapping pipelines (amount 1 ETH),
both observing the chain state `pW` (on-chain account nonce 5). -/
def bA : BundleRequest := (createSandwichBundle pW wW hA 1).get (by decide)

/-- Bundle built by the second of two overlapping pipelines (amount 2 ETH),
observing the same chain state `pW`. -/
def bB : BundleRequest := (createSandwichBundle pW wW hB 2).get (by decide)

/-- A concrete revert reason reported by the simulation. -/
def revertReasonW : String := "0xRevertReason"

/-- A simulation outcome reporting a revert of the first transaction. -/
def simRevertW : Simulation :=
  { firstRevert := some revertReasonW, totalGasUsed := 21000, totalEthSentToCoinbase := 0 }

/-- A relay that accepts the submission and whose simulation reports a
revert. -/
def fbRevertW : FlashbotsProvider :=
  { sendBundle := fun _ _ => some { simulate := some simRevertW } }

/-- Hash of a concrete victim transaction sent to the V3 router. -/
def hV3 : String := "0xVictimHashV3"

/-- A concrete victim transaction whose recipient is the V3 router. -/
def txV3 : Tx := { hash := hV3, toAddr := some uniswapV3Router, value := parseEther 2 }

/-- A provider snapshot whose pending victim targets the V3 router. -/
def pV3 : Provider :=
  { getBlockNumber := some 100
    getFeeData := some feeW
    getTransactionCount := fun _ => some 5
    getPendingBlock := some (some { transactions := some [PendingEntry.full txV3] })
    getTransaction := fun _ => some (some txV3) }

/-- The bundle built against the V3-router victim. -/
def bV3 : BundleRequest := (createSandwichBundle pV3 wW hV3 1).get (by decide)

/-- Hashes of eleven distinct pending transactions, all sent to a configured
router. -/
def routerTxHashes : List String :=
  ["0xt01", "0xt02", "0xt03", "0xt04", "0xt05", "0xt06",
   "0xt07", "0xt08", "0xt09", "0xt10", "0xt11"]

/-- Hash of the eleventh pending router transaction. -/
def h11 : String := "0xt11"

/-- A pending transaction to the V2 router with the given hash. -/
def mkRouterTx (h : String) : Tx :=
  { hash := h, toAddr := some uniswapV2Router, value := parseEther 2 }

/-- A pending pool of eleven full router transactions. -/
def entries11 : List PendingEntry :=
  routerTxHashes.map fun h => PendingEntry.full (mkRouterTx h)

/-- A provider snapshot whose pending pool holds the eleven router
transactions. -/
def p11 : Provider :=
  { getBlockNumber := some 100
    getFeeData := some feeW
    getTransactionCount := fun _ => some 5
    getPendingBlock := some (some { transactions := some entries11 })
    getTransaction := fun h => some (some (mkRouterTx h)) }

/-- `pW` with a failing pending-pool fetch. -/
def pNoPending : Provider := { pW with getPendingBlock := none }

/-- Hash of a pending transaction whose detail fetch throws. -/
def hFail : String := "0xFailHash"

/-- A router transaction whose detail fetch will throw. -/
def txFail : Tx := mkRouterTx hFail

/-- A provider whose pending pool holds a transaction with a failing detail
fetch followed by a healthy router transaction. -/
def p8 : Provider :=
  { getBlockNumber := some 100
    getFeeData := some feeW
    getTransactionCount := fun _ => some 5
    getPendingBlock := some (some
      { transactions := some [PendingEntry.full txFail, PendingEntry.full txW] })
    getTransaction := fun h => if h = hFail then none else some (some txW) }

/-- Hash of a pending transaction whose detail lookup returns nothing. -/
def hMissing : String := "0xMissingHash"

/-- Hash of a contract-creation transaction (no recipient). -/
def hNoTo : String := "0xCreateHash"

/-- A contract-creation transaction: its recipient field is absent. -/
def txNoTo : Tx := { hash := hNoTo, toAddr := none, value := 0 }

/-- A provider for the no-opportunity cases: a missing detail, a
contract-creation detail, and a bare-hash pool entry. -/
def p10 : Provider :=
  { getBlockNumber := some 100
    getFeeData := some feeW
    getTransactionCount := fun _ => some 5
    getPendingBlock := some (some { transactions := some [PendingEntry.hashOnly hW] })
    getTransaction := fun h =>
      if h = hMissing then some none
      else if h = hNoTo then some (some txNoTo)
      else some (some txW) }

/-- Inversion of a successful front-run construction: fee data and nonce were
fetched, and the request is the literal the source builds. -/
theorem createFrontRunTransaction_inv (p : Provider) (w : Wallet) (t : String)
    (a : Nat) (fr : TransactionRequest)
    (h : createFrontRunTransaction p w t a = some fr) :
    ∃ gasPrice n, p.getFeeData = some gasPrice ∧
      p.getTransactionCount w.address = some n ∧
      fr = { toAddr := uniswapV2Router
             data := swapData
             gasLimit := 200000
             maxFeePerGas := jsOr gasPrice.maxFeePerGas (parseUnitsGwei 50)
             maxPriorityFeePerGas := jsOr gasPrice.maxPriorityFeePerGas (parseUnitsGwei 2)
             value := parseEther a
             chainId := 1
             fromAddr := w.address
             nonce := n } := by
  unfold createFrontRunTransaction at h
  cases hfd : p.getFeeData with
  | none => rw [hfd] at h; exact absurd h (by simp)
  | some gasPrice =>
    rw [hfd] at h
    cases hn : p.getTransactionCount w.address with
    | none => rw [hn] at h; exact absurd h (by simp)
    | some n =>
      rw [hn] at h
      exact ⟨gasPrice, n, rfl, rfl, (Option.some.inj h).symm⟩

/-- Inversion of a successful back-run construction: fee data and nonce were
fetched, and the request is the literal the source builds (nonce + 1,
value 0). -/
theorem createBackRunTransaction_inv (p : Provider) (w : Wallet) (t : String)
    (a : Nat) (bk : TransactionRequest)
    (h : createBackRunTransaction p w t a = some bk) :
    ∃ gasPrice n, p.getFeeData = some gasPrice ∧
      p.getTransactionCount w.address = some n ∧
      bk = { toAddr := uniswapV2Router
             data := swapBackData
             gasLimit := 200000
             maxFeePerGas := jsOr gasPrice.maxFeePerGas (parseUnitsGwei 50)
             maxPriorityFeePerGas := jsOr gasPrice.maxPriorityFeePerGas (parseUnitsGwei 2)
             value := 0
             chainId := 1
             fromAddr := w.address
             nonce := n + 1 } := by
  unfold createBackRunTransaction at h
  cases hfd : p.getFeeData with
  | none => rw [hfd] at h; exact absurd h (by simp)
  | some gasPrice =>
    rw [hfd] at h
    cases hn : p.getTransactionCount w.address with
    | none => rw [hn] at h; exact absurd h (by simp)
    | some n =>
      rw [hn] at h
      exact ⟨gasPrice, n, rfl, rfl, (Option.some.inj h).symm⟩

/-- Inversion of a successful bundle build: every step succeeded and the
bundle is exactly the signed front-run followed by the signed back-run,
targeting the fetched height plus one. -/
theorem createSandwichBundle_inv (p : Provider) (w : Wallet) (t : String)
    (a : Nat) (b : BundleRequest)
    (h : createSandwichBundle p w t a = some b) :
    ∃ fr bk sigF sigB bn,
      createFrontRunTransaction p w t a = some fr ∧
      createBackRunTransaction p w t a = some bk ∧
      p.getBlockNumber = some bn ∧
      w.sign fr = some sigF ∧
      w.sign bk = some sigB ∧
      b = { transactions := [{ req := fr, sig := sigF }, { req := bk, sig := sigB }]
            blockNumber := bn + 1 } := by
  unfold createSandwichBundle at h
  cases hfr : createFrontRunTransaction p w t a with
  | none => rw [hfr] at h; exact absurd h (by simp)
  | some fr =>
    rw [hfr] at h
    simp only [] at h
    cases hbk : createBackRunTransaction p w t a with
    | none => rw [hbk] at h; exact absurd h (by simp)
    | some bk =>
      rw [hbk] at h
      simp only [] at h
      cases hbn : p.getBlockNumber with
      | none => rw [hbn] at h; exact absurd h (by simp)
      | some bn =>
        rw [hbn] at h
        simp only [Wallet.signTransaction] at h
        cases hsf : w.sign fr with
        | none => rw [hsf] at h; simp at h
        | some sigF =>
          rw [hsf] at h
          simp only [Option.map_some'] at h
          cases hsb : w.sign bk with
          | none => rw [hsb] at h; simp at h
          | some sigB =>
            rw [hsb] at h
            simp only [Option.map_some'] at h
            exact ⟨fr, bk, sigF, sigB, bn, rfl, rfl, rfl, hsf, hsb,
              (Option.some.inj h).symm⟩

/-- C1: evaluation of `executeBundle` at a bundle whose simulation reports a
revert. The call returns `false`, as the claim states, but the relay
submission (`sendBundle`) has already completed — it precedes the simulation
in the relay-interaction trace — so "no submission occurs" is violated by
the code. -/
theorem c1_code_evaluation_submits_despite_revert :
    executeBundle fbRevertW bW =
      (false, [RelayEvent.sendBundleCalled bW.transactions bW.blockNumber,
               RelayEvent.simulateCalled]) ∧
    simRevertW.firstRevert.isSome = true ∧
    RelayEvent.sendBundleCalled bW.transactions bW.blockNumber ∈
      (executeBundle fbRevertW bW).2 := by
  refine ⟨by decide, rfl, by decide⟩

/-- C2: every bundle returned by `createSandwichBundle` is exactly the signed
front-run transaction followed by the signed back-run transaction, and the
back-run nonce equals the front-run nonce plus one, so bundle order matches
nonce order. -/
theorem c2_backrun_nonce_is_frontrun_succ (p : Provider) (w : Wallet)
    (t : String) (a : Nat) (b : BundleRequest)
    (h : createSandwichBundle p w t a = some b) :
    ∃ f bk, b.transactions = [f, bk] ∧
      (∃ fr, createFrontRunTransaction p w t a = some fr ∧ f.req = fr) ∧
      (∃ br, createBackRunTransaction p w t a = some br ∧ bk.req = br) ∧
      bk.req.nonce = f.req.nonce + 1 := by
  obtain ⟨fr, bk, sigF, sigB, bn, hfr, hbk, hbn, hsf, hsb, hb⟩ :=
    createSandwichBundle_inv p w t a b h
  obtain ⟨gp1, n1, hfd1, hn1, hfrEq⟩ :=
    createFrontRunTransaction_inv p w t a fr hfr
  obtain ⟨gp2, n2, hfd2, hn2, hbkEq⟩ :=
    createBackRunTransaction_inv p w t a bk hbk
  have hn : n1 = n2 := Option.some.inj (hn1.symm.trans hn2)
  subst hb
  refine ⟨{ req := fr, sig := sigF }, { req := bk, sig := sigB }, rfl,
    ⟨fr, hfr, rfl⟩, ⟨bk, hbk, rfl⟩, ?_⟩
  rw [hfrEq, hbkEq]
  simp [hn]

/-- C2 witness: at the concrete chain state `pW` (account nonce 5) the built
bundle's transactions carry nonces 5 and 6 in that order. -/
theorem c2_backrun_nonce_is_frontrun_succ_witness :
    ∃ f bk, bW.transactions = [f, bk] ∧
      (∃ fr, createFrontRunTransaction pW wW hW 1 = some fr ∧ f.req = fr) ∧
      (∃ br, createBackRunTransaction pW wW hW 1 = some br ∧ bk.req = br) ∧
      bk.req.nonce = f.req.nonce + 1 :=
  c2_backrun_nonce_is_frontrun_succ pW wW hW 1 bW (by decide)

/-- C3: a successful `createSandwichBundle` returns a bundle whose target
block number is the block height fetched during that same build plus one;
the function takes no externally supplied height. -/
theorem c3_targetblock_is_build_height_succ (p : Provider) (w : Wallet)
    (t : String) (a : Nat) (b : BundleRequest)
    (h : createSandwichBundle p w t a = some b) :
    ∃ bn, p.getBlockNumber = some bn ∧ b.blockNumber = bn + 1 := by
  obtain ⟨fr, bk, sigF, sigB, bn, hfr, hbk, hbn, hsf, hsb, hb⟩ :=
    createSandwichBundle_inv p w t a b h
  exact ⟨bn, hbn, by rw [hb]⟩

/-- C3 witness: at chain height 100 the built bundle targets block 101. -/
theorem c3_targetblock_is_build_height_succ_witness :
    ∃ bn, pW.getBlockNumber = some bn ∧ bW.blockNumber = bn + 1 :=
  c3_targetblock_is_build_height_succ pW wW hW 1 bW (by decide)

/-- C4: failure of the fee fetch, the nonce fetch, the block-number fetch,
or the signer aborts the whole build with `none`; a non-`none` result always
holds exactly two signed transactions and a target block. -/
theorem c4_any_adapter_failure_aborts :
    (∀ (p : Provider) (w : Wallet) (t : String) (a : Nat),
       p.getFeeData = none → createSandwichBundle p w t a = none) ∧
    (∀ (p : Provider) (w : Wallet) (t : String) (a : Nat),
       p.getTransactionCount w.address = none → createSandwichBundle p w t a = none) ∧
    (∀ (p : Provider) (w : Wallet) (t : String) (a : Nat),
       p.getBlockNumber = none → createSandwichBundle p w t a = none) ∧
    (∀ (p : Provider) (w : Wallet) (t : String) (a : Nat),
       (∀ req, w.sign req = none) → createSandwichBundle p w t a = none) ∧
    (∀ (p : Provider) (w : Wallet) (t : String) (a : Nat) (b : BundleRequest),
       createSandwichBundle p w t a = some b →
       b.transactions.length = 2 ∧ ∃ bn, p.getBlockNumber = some bn ∧
         b.blockNumber = bn + 1) := by
  refine ⟨?_, ?_, ?_, ?_, ?_⟩
  · intro p w t a hfd
    simp [createSandwichBundle, createFrontRunTransaction, hfd]
  · intro p w t a hn
    cases hfd : p.getFeeData with
    | none => simp [createSandwichBundle, createFrontRunTransaction, hfd]
    | some gp => simp [createSandwichBundle, createFrontRunTransaction, hfd, hn]
  · intro p w t a hbn
    cases hfr : createFrontRunTransaction p w t a with
    | none => simp [createSandwichBundle, hfr]
    | some fr =>
      cases hbk : createBackRunTransaction p w t a with
      | none => simp [createSandwichBundle, hfr, hbk]
      | some bk => simp [createSandwichBundle, hfr, hbk, hbn]
  · intro p w t a hsign
    cases hfr : createFrontRunTransaction p w t a with
    | none => simp [createSandwichBundle, hfr]
    | some fr =>
      cases hbk : createBackRunTransaction p w t a with
      | none => simp [createSandwichBundle, hfr, hbk]
      | some bk =>
        cases hbn : p.getBlockNumber with
        | none => simp [createSandwichBundle, hfr, hbk, hbn]
        | some bn =>
          simp [createSandwichBundle, hfr, hbk, hbn, Wallet.signTransaction, hsign]
  · intro p w t a b h
    obtain ⟨fr, bk, sigF, sigB, bn, hfr, hbk, hbn, hsf, hsb, hb⟩ :=
      createSandwichBundle_inv p w t a b h
    exact ⟨by rw [hb]; rfl, bn, hbn, by rw [hb]⟩

/-- C4 witness: each adapter failure mode yields `none` concretely, and the
successful concrete build holds exactly two signed transactions targeting
block 101. -/
theorem c4_any_adapter_failure_aborts_witness :
    createSandwichBundle pNoFee wW hW 1 = none ∧
    createSandwichBundle pNoCount wW hW 1 = none ∧
    createSandwichBundle pNoBlock wW hW 1 = none ∧
    createSandwichBundle pW wNoSign hW 1 = none ∧
    (bW.transactions.length = 2 ∧ ∃ bn, pW.getBlockNumber = some bn ∧
      bW.blockNumber = bn + 1) :=
  ⟨c4_any_adapter_failure_aborts.1 pNoFee wW hW 1 rfl,
   c4_any_adapter_failure_aborts.2.1 pNoCount wW hW 1 rfl,
   c4_any_adapter_failure_aborts.2.2.1 pNoBlock wW hW 1 rfl,
   c4_any_adapter_failure_aborts.2.2.2.1 pW wNoSign hW 1 (fun _ => rfl),
   c4_any_adapter_failure_aborts.2.2.2.2 pW wW hW 1 bW (by decide)⟩

/-- C5 counterexample: a victim transaction whose recipient is the configured
Uniswap V3 router is classified as a sandwich opportunity and built into a
bundle, yet both bundle transactions target the hardcoded Uniswap V2 router,
which differs from the victim's router (also after lowercasing). -/
theorem c5_counterexample_v3_victim :
    analyzeTransaction pV3 hV3 = some (mkSandwichOpp 101) ∧
    txV3.toAddr = some uniswapV3Router ∧
    createSandwichBundle pV3 wW hV3 1 = some bV3 ∧
    bundleRecipients bV3 = [uniswapV2Router, uniswapV2Router] ∧
    uniswapV2Router ≠ uniswapV3Router ∧
    strToLower uniswapV2Router ≠ strToLower uniswapV3Router := by
  refine ⟨by decide, rfl, by decide, by decide, by decide, by decide⟩

/-- C5 amended: the front-run (and back-run) intent of every built bundle
targets the hardcoded Uniswap V2 router, regardless of which router the
victim used; it coincides with the victim's router only when the victim
targets the V2 router. -/
theorem c5_frontrun_always_targets_v2 (p : Provider) (w : Wallet)
    (t : String) (a : Nat) (b : BundleRequest)
    (h : createSandwichBundle p w t a = some b) :
    bundleRecipients b = [uniswapV2Router, uniswapV2Router] := by
  obtain ⟨fr, bk, sigF, sigB, bn, hfr, hbk, hbn, hsf, hsb, hb⟩ :=
    createSandwichBundle_inv p w t a b h
  obtain ⟨gp1, n1, hfd1, hn1, hfrEq⟩ :=
    createFrontRunTransaction_inv p w t a fr hfr
  obtain ⟨gp2, n2, hfd2, hn2, hbkEq⟩ :=
    createBackRunTransaction_inv p w t a bk hbk
  subst hb
  simp [bundleRecipients, hfrEq, hbkEq]

/-- C5 amended witness: at the V3-router victim the built bundle's two
recipients are both the V2 router. -/
theorem c5_frontrun_always_targets_v2_witness :
    bundleRecipients bV3 = [uniswapV2Router, uniswapV2Router] :=
  c5_frontrun_always_targets_v2 pV3 wW hV3 1 bV3 (by decide)

/-- C9: evaluation of two overlapping build pipelines for the same sender
against the same observed chain state (on-chain account nonce 5, as any two
concurrent builds observe before either bundle lands): the code performs no
nonce serialization, both front-runs get nonce 5 and both back-runs nonce 6,
so the four intents contain duplicated nonces, violating the claim. -/
theorem c9_code_evaluation_nonce_collision :
    createSandwichBundle pW wW hA 1 = some bA ∧
    createSandwichBundle pW wW hB 2 = some bB ∧
    bA ≠ bB ∧
    bundleNonces bA = [5, 6] ∧
    bundleNonces bB = [5, 6] ∧
    ¬ (bundleNonces bA ++ bundleNonces bB).Nodup := by
  refine ⟨by decide, by decide, by decide, by decide, by decide, by decide⟩

/-- C6 counterexample: a pending pool containing eleven full transactions,
all sent to a configured router, yields only ten opportunities — the
eleventh router transaction gets none even though analyzing it would
succeed — so the claim quantified over every pending router transaction is
false at this pool. -/
theorem c6_counterexample_eleventh_router_tx :
    (entries11.filter isRouterEntry).length = 11 ∧
    (scanMEVOpportunities p11).length = 10 ∧
    analyzeTransaction p11 h11 = some (mkSandwichOpp 101) ∧
    PendingEntry.full (mkRouterTx h11) ∈ entries11 := by
  refine ⟨by decide, by decide, by decide, by decide⟩

/-- C6 amended: for every full transaction object among the first 10 entries
of the pending pool whose fetched detail has a recipient in the configured
router list, the scanner emits exactly one opportunity from that entry, of
kind sandwich, with target block the current height plus 1, regardless of
the transaction's value. -/
theorem c6_scanner_emits_sandwich_first10 (p : Provider) (pb : PendingBlock)
    (entries : List PendingEntry) (tx : Tx) (toA : String) (bn : Nat)
    (hpb : p.getPendingBlock = some (some pb))
    (hentries : pb.transactions = some entries)
    (hmem : PendingEntry.full tx ∈ entries.take 10)
    (hdetail : p.getTransaction tx.hash = some (some tx))
    (hto : tx.toAddr = some toA)
    (hrouter : strToLower toA ∈ dexAddresses)
    (hbn : p.getBlockNumber = some bn) :
    analyzeEntry p (PendingEntry.full tx) = some (mkSandwichOpp (bn + 1)) ∧
    mkSandwichOpp (bn + 1) ∈ scanMEVOpportunities p := by
  have hana : analyzeEntry p (PendingEntry.full tx) = some (mkSandwichOpp (bn + 1)) := by
    simp [analyzeEntry, analyzeTransaction, hdetail, hto, hrouter, hbn, mkSandwichOpp]
  refine ⟨hana, ?_⟩
  unfold scanMEVOpportunities
  rw [hpb]
  simp only []
  rw [hentries]
  exact List.mem_filterMap.mpr ⟨PendingEntry.full tx, hmem, hana⟩

/-- C6 amended witness: the concrete pool with one full V2-router victim
yields exactly the sandwich opportunity targeting block 101. -/
theorem c6_scanner_emits_sandwich_first10_witness :
    analyzeEntry pW (PendingEntry.full txW) = some (mkSandwichOpp 101) ∧
    mkSandwichOpp 101 ∈ scanMEVOpportunities pW :=
  c6_scanner_emits_sandwich_first10 pW
    { transactions := some [PendingEntry.full txW] }
    [PendingEntry.full txW] txW uniswapV2Router 100
    rfl rfl (by decide) rfl rfl (by decide) rfl

/-- The per-entry analysis depends only on the detail-fetch and block-number
capabilities of the provider, not on its pending pool. -/
theorem analyzeEntry_ext (p1 p2 : Provider) (e : PendingEntry)
    (h1 : p1.getTransaction = p2.getTransaction)
    (h2 : p1.getBlockNumber = p2.getBlockNumber) :
    analyzeEntry p1 e = analyzeEntry p2 e := by
  cases e with
  | hashOnly h => rfl
  | full tx => simp [analyzeEntry, analyzeTransaction, h1, h2]

/-- C7: the scanner examines at most the first 10 pending-pool entries: its
result always has at most 10 elements, and entries beyond the first 10 never
affect the result. -/
theorem c7_scan_examines_at_most_ten :
    (∀ p : Provider, (scanMEVOpportunities p).length ≤ 10) ∧
    (∀ (bn : Option Nat) (fd : Option FeeData) (tc : String → Option Nat)
       (gt : String → Option (Option Tx)) (entries : List PendingEntry),
       scanMEVOpportunities
         { getBlockNumber := bn, getFeeData := fd, getTransactionCount := tc,
           getPendingBlock := some (some { transactions := some entries }),
           getTransaction := gt } =
       scanMEVOpportunities
         { getBlockNumber := bn, getFeeData := fd, getTransactionCount := tc,
           getPendingBlock := some (some { transactions := some (entries.take 10) }),
           getTransaction := gt }) := by
  constructor
  · intro p
    unfold scanMEVOpportunities
    cases hp : p.getPendingBlock with
    | none => simp
    | some ob =>
      cases ob with
      | none => simp
      | some pb =>
        simp only []
        cases ht : pb.transactions with
        | none => simp
        | some entries =>
          simp only []
          exact le_trans (List.length_filterMap_le _ _) (List.length_take_le _ _)
  · intro bn fd tc gt entries
    have hf : analyzeEntry
          { getBlockNumber := bn, getFeeData := fd, getTransactionCount := tc,
            getPendingBlock := some (some { transactions := some entries }),
            getTransaction := gt } =
        analyzeEntry
          { getBlockNumber := bn, getFeeData := fd, getTransactionCount := tc,
            getPendingBlock := some (some { transactions := some (entries.take 10) }),
            getTransaction := gt } :=
      funext fun e => analyzeEntry_ext _ _ e rfl rfl
    simp [scanMEVOpportunities, List.take_take, hf]

/-- C8: a failing pending-pool fetch yields the empty list (no crash), a
failing detail fetch for one transaction yields no opportunity from that
entry only, and an opportunity produced by any other entry of the scanned
window is still in the result. -/
theorem c8_scan_errors_nonfatal :
    (∀ p : Provider, p.getPendingBlock = none → scanMEVOpportunities p = []) ∧
    (∀ (p : Provider) (tx : Tx), p.getTransaction tx.hash = none →
       analyzeEntry p (PendingEntry.full tx) = none) ∧
    (∀ (p : Provider) (pb : PendingBlock) (entries : List PendingEntry)
       (e : PendingEntry) (o : MEVOpportunity),
       p.getPendingBlock = some (some pb) → pb.transactions = some entries →
       e ∈ entries.take 10 → analyzeEntry p e = some o →
       o ∈ scanMEVOpportunities p) := by
  refine ⟨?_, ?_, ?_⟩
  · intro p hp
    simp [scanMEVOpportunities, hp]
  · intro p tx hfail
    simp [analyzeEntry, analyzeTransaction, hfail]
  · intro p pb entries e o hpb hentries hmem hana
    unfold scanMEVOpportunities
    rw [hpb]
    simp only []
    rw [hentries]
    exact List.mem_filterMap.mpr ⟨e, hmem, hana⟩

/-- C8 witness: concretely, a failing pool fetch returns the empty list, the
entry with the failing detail fetch contributes nothing, and the healthy
router transaction's opportunity survives in the same scan. -/
theorem c8_scan_errors_nonfatal_witness :
    scanMEVOpportunities pNoPending = [] ∧
    analyzeEntry p8 (PendingEntry.full txFail) = none ∧
    mkSandwichOpp 101 ∈ scanMEVOpportunities p8 :=
  ⟨c8_scan_errors_nonfatal.1 pNoPending rfl,
   c8_scan_errors_nonfatal.2.1 p8 txFail (by decide),
   c8_scan_errors_nonfatal.2.2 p8
     { transactions := some [PendingEntry.full txFail, PendingEntry.full txW] }
     [PendingEntry.full txFail, PendingEntry.full txW]
     (PendingEntry.full txW) (mkSandwichOpp 101) rfl rfl (by decide) (by decide)⟩

/-- C10: a detail lookup returning nothing, a detail without a recipient
(contract creation), and a bare-hash pool entry each produce no
opportunity. -/
theorem c10_no_opportunity_for_degenerate_entries :
    (∀ (p : Provider) (txh : String), p.getTransaction txh = some none →
       analyzeTransaction p txh = none) ∧
    (∀ (p : Provider) (txh : String) (tx : Tx),
       p.getTransaction txh = some (some tx) → tx.toAddr = none →
       analyzeTransaction p txh = none) ∧
    (∀ (p : Provider) (txh : String),
       analyzeEntry p (PendingEntry.hashOnly txh) = none) := by
  refine ⟨?_, ?_, ?_⟩
  · intro p txh hmiss
    simp [analyzeTransaction, hmiss]
  · intro p txh tx hdet hto
    simp [analyzeTransaction, hdet, hto]
  · intro p txh
    rfl

/-- C10 witness: the three degenerate shapes evaluated on the concrete
provider `p10` all yield no opportunity. -/
theorem c10_no_opportunity_for_degenerate_entries_witness :
    analyzeTransaction p10 hMissing = none ∧
    analyzeTransaction p10 hNoTo = none ∧
    analyzeEntry p10 (PendingEntry.hashOnly hW) = none :=
  ⟨c10_no_opportunity_for_degenerate_entries.1 p10 hMissing (by decide),
   c10_no_opportunity_for_degenerate_entries.2.1 p10 hNoTo txNoTo (by decide) rfl,
   c10_no_opportunity_for_degenerate_entries.2.2 p10 hW⟩
